import Mathlib

/-!
Verification of the structural-analysis library: a shallow embedding of the
Euler-Bernoulli beam solver (beam_theory.py) and the Euler column-buckling
calculator (column_theory.py), with theorems settling the specified claims.

Python floats are modelled by rationals; the numpy constants and functions
np.pi and np.sqrt are abstracted as an explicit FloatOps parameter.
Fallible calls (ValueError) are modelled by Except String.
-/

/-- The load_type literal of euler_bernoulli. -/
inductive LoadType
  | point
  | distributed
  | moment
deriving DecidableEq, Repr

/-- The boundary_conditions literal of euler_bernoulli. -/
inductive BoundaryCondition
  | simply_supported
  | cantilever
  | fixed_fixed
deriving DecidableEq, Repr

/-- The dictionary returned by euler_bernoulli. -/
structure BeamResult where
  x : List ℚ
  deflection : List ℚ
  moment : List ℚ
  shear : List ℚ
  max_deflection : ℚ
  max_moment : ℚ
deriving DecidableEq, Repr

/-- Model of np.linspace(0, stop, num): num samples from 0 to stop inclusive,
with step stop/(num-1).  For num = 1 the formula degenerates to the single
sample 0, matching numpy; for num = 0 it gives the empty array. -/
def linspace (stop : ℚ) (num : ℕ) : List ℚ :=
  (List.range num).map (fun (i : ℕ) => stop * (i : ℚ) / ((num - 1 : ℕ) : ℚ))

/-- Model of np.max on a float array: raises ValueError on a zero-size array. -/
def npMax (l : List ℚ) : Except String ℚ :=
  match l with
  | [] => Except.error "zero-size array to reduction operation maximum which has no identity"
  | h :: t => Except.ok (t.foldl max h)

/-- The value np.max computes on a nonempty array (0 on the empty one,
where np.max itself raises). -/
def headFold (l : List ℚ) : ℚ :=
  match l with
  | [] => 0
  | h :: t => t.foldl max h

/-- Sub-solver _simply_supported_point_load of beam_theory.py. -/
def _simply_supported_point_load (x : List ℚ) (L E moment_of_inertia P a : ℚ) :
    List ℚ × List ℚ × List ℚ :=
  let b := L - a
  let deflection := x.map (fun xi =>
    if xi ≤ a then
      (P * b * xi * (L ^ 2 - b ^ 2 - xi ^ 2)) / (6 * E * moment_of_inertia * L)
    else
      (P * a * (L - xi) * (2 * L * xi - xi ^ 2 - a ^ 2)) / (6 * E * moment_of_inertia * L))
  let R1 := P * b / L
  let R2 := P * a / L
  let moment := x.map (fun xi =>
    if xi ≤ a then R1 * xi else R1 * xi - P * (xi - a))
  let shear := x.map (fun xi =>
    if xi < a then R1 else if xi > a then -R2 else 0)
  (deflection, moment, shear)

/-- Sub-solver _simply_supported_distributed_load of beam_theory.py. -/
def _simply_supported_distributed_load (x : List ℚ) (L E second_moment w : ℚ) :
    List ℚ × List ℚ × List ℚ :=
  (x.map (fun xi => (w * xi * (L ^ 3 - 2 * L * xi ^ 2 + xi ^ 3)) / (24 * E * second_moment)),
   x.map (fun xi => (w * xi * (L - xi)) / 2),
   x.map (fun xi => (w * L / 2) - w * xi))

/-- Sub-solver _simply_supported_moment of beam_theory.py. -/
def _simply_supported_moment (x : List ℚ) (L E moment_of_inertia M a : ℚ) :
    List ℚ × List ℚ × List ℚ :=
  let M1 := M * (L - a) / L
  let M2 := M * a / L
  let deflection := x.map (fun xi =>
    if xi ≤ a then
      (M1 * xi * (L ^ 2 - xi ^ 2)) / (6 * E * moment_of_inertia * L)
    else
      (M2 * (L - xi) * (L ^ 2 - (L - xi) ^ 2)) / (6 * E * moment_of_inertia * L))
  let moment := x.map (fun xi =>
    if xi ≤ a then M1 * xi / L else M2 * (L - xi) / L)
  let shear := List.replicate x.length (0 : ℚ)
  (deflection, moment, shear)

/-- Sub-solver _cantilever_point_load of beam_theory.py. -/
def _cantilever_point_load (x : List ℚ) (L E second_moment P a : ℚ) :
    List ℚ × List ℚ × List ℚ :=
  (x.map (fun xi =>
     if xi ≤ a then (P * xi ^ 2 * (3 * a - xi)) / (6 * E * second_moment)
     else (P * a ^ 2 * (3 * xi - a)) / (6 * E * second_moment)),
   x.map (fun xi => if xi ≤ a then -P * (a - xi) else 0),
   x.map (fun xi => if xi ≤ a then -P else 0))

/-- Sub-solver _cantilever_distributed_load of beam_theory.py. -/
def _cantilever_distributed_load (x : List ℚ) (L E second_moment w : ℚ) :
    List ℚ × List ℚ × List ℚ :=
  (x.map (fun xi => (w * xi ^ 2 * (6 * L ^ 2 - 4 * L * xi + xi ^ 2)) / (24 * E * second_moment)),
   x.map (fun xi => -w * (L - xi) ^ 2 / 2),
   x.map (fun xi => -w * (L - xi)))

/-- Sub-solver _cantilever_moment of beam_theory.py. -/
def _cantilever_moment (x : List ℚ) (L E second_moment M a : ℚ) :
    List ℚ × List ℚ × List ℚ :=
  (x.map (fun xi =>
     if xi ≤ a then (M * xi ^ 2) / (2 * E * second_moment)
     else (M * xi * (2 * a - xi)) / (2 * E * second_moment)),
   x.map (fun xi => if xi ≤ a then -M else 0),
   List.replicate x.length (0 : ℚ))

/-- Sub-solver _fixed_fixed_point_load of beam_theory.py. -/
def _fixed_fixed_point_load (x : List ℚ) (L E second_moment P a : ℚ) :
    List ℚ × List ℚ × List ℚ :=
  let b := L - a
  let R1 := P * b ^ 2 * (3 * a + b) / L ^ 3
  let M1 := P * a * b ^ 2 / L ^ 2
  (x.map (fun xi =>
     if xi ≤ a then (R1 * xi ^ 3 / 6 - M1 * xi ^ 2 / 2) / (E * second_moment)
     else (R1 * xi ^ 3 / 6 - M1 * xi ^ 2 / 2 - P * (xi - a) ^ 3 / 6) / (E * second_moment)),
   x.map (fun xi =>
     if xi ≤ a then R1 * xi - M1 else R1 * xi - M1 - P * (xi - a)),
   x.map (fun xi => if xi ≤ a then R1 else R1 - P))

/-- Sub-solver _fixed_fixed_distributed_load of beam_theory.py. -/
def _fixed_fixed_distributed_load (x : List ℚ) (L E second_moment w : ℚ) :
    List ℚ × List ℚ × List ℚ :=
  (x.map (fun xi => (w * xi ^ 2 * (L - xi) ^ 2) / (24 * E * second_moment)),
   x.map (fun xi => (w * L ^ 2 / 12) - (w * xi * (L - xi)) / 2),
   x.map (fun xi => (w * L / 2) - w * xi))

/-- The if/elif dispatch of euler_bernoulli over (boundary_conditions,
load_type): selects a sub-solver, or leaves the zero-initialized arrays for
the unimplemented (fixed_fixed, moment) combination.  The none cases for
point/moment position are unreachable after validation (Python asserts
there) and likewise keep the zero-initialized arrays. -/
def dispatch (x : List ℚ) (L E I : ℚ) (lt : LoadType) (P : ℚ)
    (pos : Option ℚ) (bc : BoundaryCondition) : List ℚ × List ℚ × List ℚ :=
  match bc, lt, pos with
  | .simply_supported, .point, some a => _simply_supported_point_load x L E I P a
  | .simply_supported, .distributed, _ => _simply_supported_distributed_load x L E I P
  | .simply_supported, .moment, some a => _simply_supported_moment x L E I P a
  | .cantilever, .point, some a => _cantilever_point_load x L E I P a
  | .cantilever, .distributed, _ => _cantilever_distributed_load x L E I P
  | .cantilever, .moment, some a => _cantilever_moment x L E I P a
  | .fixed_fixed, .point, some a => _fixed_fixed_point_load x L E I P a
  | .fixed_fixed, .distributed, _ => _fixed_fixed_distributed_load x L E I P
  | _, _, _ =>
      (List.replicate x.length 0, List.replicate x.length 0, List.replicate x.length 0)

/-- BeamTheory.euler_bernoulli of beam_theory.py: validation, station grid,
dispatch to the sub-solvers, maxima of absolute values. -/
def euler_bernoulli (length E second_moment : ℚ) (load_type : LoadType)
    (load_magnitude : ℚ) (load_position : Option ℚ)
    (boundary_conditions : BoundaryCondition) (num_points : ℕ) :
    Except String BeamResult :=
  if length ≤ 0 ∨ E ≤ 0 ∨ second_moment ≤ 0 then
    Except.error "Length, E, and second_moment must be positive"
  else if load_magnitude = 0 then
    Except.error "Load magnitude cannot be zero"
  else if load_type = LoadType.point ∧ load_position = none then
    Except.error "Point load requires load_position"
  else if load_type = LoadType.moment ∧ load_position = none then
    Except.error "Applied moment requires load_position"
  else
    let x := linspace length num_points
    let dms := dispatch x length E second_moment load_type load_magnitude
      load_position boundary_conditions
    match npMax (dms.1.map abs), npMax (dms.2.1.map abs) with
    | Except.ok md, Except.ok mm =>
        Except.ok ⟨x, dms.1, dms.2.1, dms.2.2, md, mm⟩
    | Except.error e, _ => Except.error e
    | Except.ok _, Except.error e => Except.error e

/-- The numpy float constants and functions used by column_theory.py:
np.pi and np.sqrt, abstracted since their values are transcendental
approximations; every theorem below holds for any interpretation. -/
structure FloatOps where
  pi : ℚ
  sqrt : ℚ → ℚ

/-- The end_conditions literal of euler_buckling. -/
inductive EndCondition
  | pinned
  | fixed
  | fixed_free
  | fixed_pinned
deriving DecidableEq, Repr

/-- The EulerBucklingResult TypedDict of column_theory.py. -/
structure EulerBucklingResult where
  critical_load : ℚ
  design_load : ℚ
  critical_stress : ℚ
  effective_length : ℚ
  K_factor : ℚ
  slenderness_ratio : ℚ
  radius_of_gyration : ℚ
  recommendation : String
deriving DecidableEq, Repr

/-- The K_factors effective-length lookup table of euler_buckling
(0.5 and 0.7 as exact rationals). -/
def K_factors : EndCondition → ℚ
  | .pinned => 1
  | .fixed => 1 / 2
  | .fixed_free => 2
  | .fixed_pinned => 7 / 10

/-- The recommendation if/elif chain of euler_buckling, as a function of the
slenderness ratio. -/
def recommendationOf (slenderness_ratio : ℚ) : String :=
  if slenderness_ratio < 50 then
    "Short column - check crushing/yielding instead of buckling"
  else if slenderness_ratio < 100 then
    "Intermediate column - consider inelastic buckling"
  else if slenderness_ratio < 200 then
    "Long column - Euler buckling applicable"
  else
    "Very slender - verify assumptions and consider imperfections"

/-- ColumnTheory.euler_buckling of column_theory.py. -/
def euler_buckling (ops : FloatOps) (length E second_moment : ℚ)
    (end_conditions : EndCondition) (safety_factor : ℚ) :
    Except String EulerBucklingResult :=
  if length ≤ 0 then Except.error "Length must be positive"
  else if E ≤ 0 then Except.error "Elastic modulus must be positive"
  else if second_moment ≤ 0 then Except.error "Second moment of area must be positive"
  else if safety_factor ≤ 0 then Except.error "Safety factor must be positive"
  else
    let K := K_factors end_conditions
    let effective_length := K * length
    let critical_load := (ops.pi ^ 2 * E * second_moment) / effective_length ^ 2
    let design_load := critical_load / safety_factor
    let estimated_area := ops.sqrt second_moment
    let radius_of_gyration := ops.sqrt (second_moment / estimated_area)
    let slenderness_ratio := effective_length / radius_of_gyration
    let critical_stress := critical_load / estimated_area
    Except.ok
      { critical_load := critical_load
        design_load := design_load
        critical_stress := critical_stress
        effective_length := effective_length
        K_factor := K
        slenderness_ratio := slenderness_ratio
        radius_of_gyration := radius_of_gyration
        recommendation := recommendationOf slenderness_ratio }

/-- The four validation (InvalidParameter) messages of euler_bernoulli. -/
def invalidParameterMessages : List String :=
  ["Length, E, and second_moment must be positive",
   "Load magnitude cannot be zero",
   "Point load requires load_position",
   "Applied moment requires load_position"]

lemma npMax_eq_ok (l : List ℚ) (h : l ≠ []) : npMax l = Except.ok (headFold l) := by
  cases l with
  | nil => exact absurd rfl h
  | cons a t => rfl

lemma foldl_max_replicate_zero (n : ℕ) :
    List.foldl max (0 : ℚ) (List.replicate n 0) = 0 := by
  induction n with
  | zero => rfl
  | succ m ih =>
      rw [List.replicate_succ, List.foldl_cons, max_self]
      exact ih

lemma headFold_replicate_zero (n : ℕ) :
    headFold (List.replicate n (0 : ℚ)) = 0 := by
  cases n with
  | zero => rfl
  | succ m =>
      rw [List.replicate_succ]
      show List.foldl max (0 : ℚ) (List.replicate m 0) = 0
      exact foldl_max_replicate_zero m

lemma linspace_length (stop : ℚ) (num : ℕ) : (linspace stop num).length = num := by
  simp [linspace]

lemma linspace_getD (stop : ℚ) (num : ℕ) (i : ℕ) (hi : i < num) :
    (linspace stop num).getD i 0 = stop * i / ((num - 1 : ℕ) : ℚ) := by
  rw [linspace, List.getD_eq_getElem?_getD, List.getElem?_map, List.getElem?_range hi]
  rfl

lemma dispatch_lengths (x : List ℚ) (L E I : ℚ) (lt : LoadType) (P : ℚ)
    (pos : Option ℚ) (bc : BoundaryCondition) :
    (dispatch x L E I lt P pos bc).1.length = x.length ∧
    (dispatch x L E I lt P pos bc).2.1.length = x.length ∧
    (dispatch x L E I lt P pos bc).2.2.length = x.length := by
  cases bc <;> cases lt <;> cases pos <;>
    simp [dispatch, _simply_supported_point_load, _simply_supported_distributed_load,
      _simply_supported_moment, _cantilever_point_load, _cantilever_distributed_load,
      _cantilever_moment, _fixed_fixed_point_load, _fixed_fixed_distributed_load]

lemma euler_bernoulli_ok_eq (L E I : ℚ) (lt : LoadType) (P : ℚ)
    (pos : Option ℚ) (bc : BoundaryCondition) (N : ℕ)
    (h1 : ¬(L ≤ 0 ∨ E ≤ 0 ∨ I ≤ 0)) (h2 : ¬(P = 0))
    (h3 : ¬(lt = LoadType.point ∧ pos = none))
    (h4 : ¬(lt = LoadType.moment ∧ pos = none)) (hN : 1 ≤ N) :
    euler_bernoulli L E I lt P pos bc N =
      Except.ok
        ⟨linspace L N,
         (dispatch (linspace L N) L E I lt P pos bc).1,
         (dispatch (linspace L N) L E I lt P pos bc).2.1,
         (dispatch (linspace L N) L E I lt P pos bc).2.2,
         headFold ((dispatch (linspace L N) L E I lt P pos bc).1.map abs),
         headFold ((dispatch (linspace L N) L E I lt P pos bc).2.1.map abs)⟩ := by
  have hx : (linspace L N).length = N := linspace_length L N
  have hlen := dispatch_lengths (linspace L N) L E I lt P pos bc
  have hd1 : (dispatch (linspace L N) L E I lt P pos bc).1.map abs ≠ [] := by
    intro hcon
    have := congrArg List.length hcon
    simp [hlen.1, hx] at this
    omega
  have hd2 : (dispatch (linspace L N) L E I lt P pos bc).2.1.map abs ≠ [] := by
    intro hcon
    have := congrArg List.length hcon
    simp [hlen.2.1, hx] at this
    omega
  rw [euler_bernoulli, if_neg h1, if_neg h2, if_neg h3, if_neg h4]
  simp only [npMax_eq_ok _ hd1, npMax_eq_ok _ hd2]

lemma linspace_one (L : ℚ) : linspace L 1 = [0] := by
  norm_num [linspace, List.range_succ]

lemma euler_bernoulli_zero_points (L E I : ℚ) (lt : LoadType) (P : ℚ)
    (pos : Option ℚ) (bc : BoundaryCondition)
    (h1 : ¬(L ≤ 0 ∨ E ≤ 0 ∨ I ≤ 0)) (h2 : ¬(P = 0))
    (h3 : ¬(lt = LoadType.point ∧ pos = none))
    (h4 : ¬(lt = LoadType.moment ∧ pos = none)) :
    euler_bernoulli L E I lt P pos bc 0 =
      Except.error "zero-size array to reduction operation maximum which has no identity" := by
  have hx : linspace L 0 = [] := by simp [linspace]
  have hlen := dispatch_lengths (linspace L 0) L E I lt P pos bc
  have hd1 : (dispatch (linspace L 0) L E I lt P pos bc).1 = [] := by
    rw [← List.length_eq_zero]
    rw [hlen.1, hx]
    rfl
  rw [euler_bernoulli, if_neg h1, if_neg h2, if_neg h3, if_neg h4]
  simp only [hd1, List.map_nil, npMax]

/-- C1: for every valid input (L, E, I positive, nonzero magnitude, position
supplied) with boundary_conditions = fixed_fixed and load_type = moment,
euler_bernoulli returns without raising, with deflection, moment and shear
all exactly zero at every station and max_deflection = max_moment = 0. -/
theorem euler_bernoulli_fixed_fixed_moment_zero (L E I M a : ℚ) (N : ℕ)
    (hL : 0 < L) (hE : 0 < E) (hI : 0 < I) (hM : M ≠ 0) (hN : 1 ≤ N) :
    euler_bernoulli L E I LoadType.moment M (some a)
        BoundaryCondition.fixed_fixed N =
      Except.ok ⟨linspace L N, List.replicate N 0, List.replicate N 0,
        List.replicate N 0, 0, 0⟩ := by
  have h1 : ¬(L ≤ 0 ∨ E ≤ 0 ∨ I ≤ 0) := by push_neg; exact ⟨hL, hE, hI⟩
  rw [euler_bernoulli_ok_eq L E I LoadType.moment M (some a)
    BoundaryCondition.fixed_fixed N h1 hM (by simp) (by simp) hN]
  have hd : dispatch (linspace L N) L E I LoadType.moment M (some a)
      BoundaryCondition.fixed_fixed =
      (List.replicate (linspace L N).length 0,
       List.replicate (linspace L N).length 0,
       List.replicate (linspace L N).length 0) := rfl
  rw [hd, linspace_length]
  simp only [List.map_replicate, abs_zero, headFold_replicate_zero]

/-- Witness for C1 at a concrete valid input. -/
theorem euler_bernoulli_fixed_fixed_moment_zero_witness :
    euler_bernoulli 1 1 1 LoadType.moment 1 (some (1/2))
        BoundaryCondition.fixed_fixed 2 =
      Except.ok ⟨linspace 1 2, List.replicate 2 0, List.replicate 2 0,
        List.replicate 2 0, 0, 0⟩ :=
  euler_bernoulli_fixed_fixed_moment_zero 1 1 1 1 (1/2) 2 one_pos one_pos
    one_pos one_ne_zero one_le_two

/-- C8: for every valid input with load_type = moment, under every boundary
condition, the returned shear sequence is exactly 0 at every station. -/
theorem euler_bernoulli_moment_shear_zero (L E I M a : ℚ)
    (bc : BoundaryCondition) (N : ℕ)
    (hL : 0 < L) (hE : 0 < E) (hI : 0 < I) (hM : M ≠ 0) (hN : 1 ≤ N) :
    ∃ r, euler_bernoulli L E I LoadType.moment M (some a) bc N = Except.ok r ∧
      r.shear = List.replicate N 0 := by
  have h1 : ¬(L ≤ 0 ∨ E ≤ 0 ∨ I ≤ 0) := by push_neg; exact ⟨hL, hE, hI⟩
  refine ⟨_, euler_bernoulli_ok_eq L E I LoadType.moment M (some a) bc N h1 hM
    (by simp) (by simp) hN, ?_⟩
  show (dispatch (linspace L N) L E I LoadType.moment M (some a) bc).2.2 =
    List.replicate N 0
  cases bc with
  | simply_supported =>
      show (_simply_supported_moment (linspace L N) L E I M a).2.2 =
        List.replicate N 0
      rw [_simply_supported_moment]
      simp only [linspace_length]
  | cantilever =>
      show (_cantilever_moment (linspace L N) L E I M a).2.2 =
        List.replicate N 0
      rw [_cantilever_moment]
      simp only [linspace_length]
  | fixed_fixed =>
      show List.replicate (linspace L N).length (0 : ℚ) = List.replicate N 0
      rw [linspace_length]

/-- Witness for C8 at a concrete valid input. -/
theorem euler_bernoulli_moment_shear_zero_witness :
    ∃ r, euler_bernoulli 1 1 1 LoadType.moment 1 (some (1/2))
        BoundaryCondition.cantilever 2 = Except.ok r ∧
      r.shear = List.replicate 2 0 :=
  euler_bernoulli_moment_shear_zero 1 1 1 1 (1/2)
    BoundaryCondition.cantilever 2 one_pos one_pos one_pos one_ne_zero
    one_le_two

/-- C9: for every valid input, the x, deflection, moment and shear sequences
all have length exactly num_points, and x is uniformly spaced and
monotonically non-decreasing from 0 to L. -/
theorem euler_bernoulli_shape_invariants (L E I P : ℚ) (lt : LoadType)
    (pos : Option ℚ) (bc : BoundaryCondition) (N : ℕ)
    (hL : 0 < L) (hE : 0 < E) (hI : 0 < I) (hP : P ≠ 0)
    (hpt : ¬(lt = LoadType.point ∧ pos = none))
    (hmo : ¬(lt = LoadType.moment ∧ pos = none))
    (hN : 2 ≤ N) :
    ∃ r, euler_bernoulli L E I lt P pos bc N = Except.ok r
      ∧ r.x.length = N ∧ r.deflection.length = N ∧ r.moment.length = N
      ∧ r.shear.length = N
      ∧ r.x.getD 0 0 = 0 ∧ r.x.getD (N - 1) 0 = L
      ∧ (∀ i, i + 1 < N →
          r.x.getD (i + 1) 0 - r.x.getD i 0 = L / ((N - 1 : ℕ) : ℚ))
      ∧ (∀ i j, i ≤ j → j < N → r.x.getD i 0 ≤ r.x.getD j 0) := by
  have h1 : ¬(L ≤ 0 ∨ E ≤ 0 ∨ I ≤ 0) := by push_neg; exact ⟨hL, hE, hI⟩
  have hN1 : 1 ≤ N := by omega
  have hlen := dispatch_lengths (linspace L N) L E I lt P pos bc
  refine ⟨_, euler_bernoulli_ok_eq L E I lt P pos bc N h1 hP hpt hmo hN1,
    linspace_length L N,
    hlen.1.trans (linspace_length L N),
    hlen.2.1.trans (linspace_length L N),
    hlen.2.2.trans (linspace_length L N), ?_, ?_, ?_, ?_⟩
  · show (linspace L N).getD 0 0 = 0
    rw [linspace_getD L N 0 (by omega)]
    simp
  · show (linspace L N).getD (N - 1) 0 = L
    rw [linspace_getD L N (N - 1) (by omega), mul_div_assoc,
      div_self (by exact_mod_cast (by omega : N - 1 ≠ 0)), mul_one]
  · intro i hi
    show (linspace L N).getD (i + 1) 0 - (linspace L N).getD i 0 =
      L / ((N - 1 : ℕ) : ℚ)
    rw [linspace_getD L N (i + 1) hi, linspace_getD L N i (by omega),
      div_sub_div_same]
    congr 1
    push_cast
    ring
  · intro i j hij hj
    show (linspace L N).getD i 0 ≤ (linspace L N).getD j 0
    rw [linspace_getD L N i (by omega), linspace_getD L N j hj]
    have hc : (0 : ℚ) < ((N - 1 : ℕ) : ℚ) := by exact_mod_cast (by omega : 0 < N - 1)
    have hm : L * (i : ℚ) ≤ L * (j : ℚ) :=
      mul_le_mul_of_nonneg_left (Nat.cast_le.mpr hij) hL.le
    exact (div_le_div_iff_of_pos_right hc).mpr hm

/-- Witness for C9 at a concrete valid input. -/
theorem euler_bernoulli_shape_invariants_witness :
    ∃ r, euler_bernoulli 1 1 1 LoadType.distributed 1 none
        BoundaryCondition.simply_supported 2 = Except.ok r
      ∧ r.x.length = 2 ∧ r.deflection.length = 2 ∧ r.moment.length = 2
      ∧ r.shear.length = 2
      ∧ r.x.getD 0 0 = 0 ∧ r.x.getD (2 - 1) 0 = 1
      ∧ (∀ i, i + 1 < 2 →
          r.x.getD (i + 1) 0 - r.x.getD i 0 = 1 / ((2 - 1 : ℕ) : ℚ))
      ∧ (∀ i j, i ≤ j → j < 2 → r.x.getD i 0 ≤ r.x.getD j 0) :=
  euler_bernoulli_shape_invariants 1 1 1 1 LoadType.distributed none
    BoundaryCondition.simply_supported 2 one_pos one_pos one_pos one_ne_zero
    (by simp) (by simp) (le_refl 2)

/-- C10: euler_bernoulli never validates num_points; with num_points = 1 the
call succeeds and returns length-1 sequences with x = [0]. -/
theorem euler_bernoulli_num_points_unvalidated (L E I P : ℚ) (lt : LoadType)
    (pos : Option ℚ) (bc : BoundaryCondition)
    (hL : 0 < L) (hE : 0 < E) (hI : 0 < I) (hP : P ≠ 0)
    (hpt : ¬(lt = LoadType.point ∧ pos = none))
    (hmo : ¬(lt = LoadType.moment ∧ pos = none)) :
    ∃ r, euler_bernoulli L E I lt P pos bc 1 = Except.ok r
      ∧ r.x = [0] ∧ r.deflection.length = 1 ∧ r.moment.length = 1
      ∧ r.shear.length = 1 := by
  have h1 : ¬(L ≤ 0 ∨ E ≤ 0 ∨ I ≤ 0) := by push_neg; exact ⟨hL, hE, hI⟩
  have hlen := dispatch_lengths (linspace L 1) L E I lt P pos bc
  exact ⟨_, euler_bernoulli_ok_eq L E I lt P pos bc 1 h1 hP hpt hmo (le_refl 1),
    linspace_one L,
    hlen.1.trans (linspace_length L 1),
    hlen.2.1.trans (linspace_length L 1),
    hlen.2.2.trans (linspace_length L 1)⟩

/-- Witness for C10 at a concrete valid input. -/
theorem euler_bernoulli_num_points_unvalidated_witness :
    ∃ r, euler_bernoulli 1 1 1 LoadType.point 1 (some (1/2))
        BoundaryCondition.cantilever 1 = Except.ok r
      ∧ r.x = [0] ∧ r.deflection.length = 1 ∧ r.moment.length = 1
      ∧ r.shear.length = 1 :=
  euler_bernoulli_num_points_unvalidated 1 1 1 1 LoadType.point (some (1/2))
    BoundaryCondition.cantilever one_pos one_pos one_pos one_ne_zero
    (by simp) (by simp)

/-- C2: euler_bernoulli raises an InvalidParameter error if and only if
length, E or second_moment is non-positive, the magnitude is zero, or a
point/moment load has no position; and with those conditions met the call
succeeds for any supplied position, including positions beyond the beam
length. -/
theorem euler_bernoulli_invalid_iff (L E I : ℚ) (lt : LoadType) (P : ℚ)
    (pos : Option ℚ) (bc : BoundaryCondition) (N : ℕ) :
    ((∃ msg ∈ invalidParameterMessages,
        euler_bernoulli L E I lt P pos bc N = Except.error msg) ↔
      (L ≤ 0 ∨ E ≤ 0 ∨ I ≤ 0 ∨ P = 0 ∨ (lt = LoadType.point ∧ pos = none) ∨
        (lt = LoadType.moment ∧ pos = none)))
    ∧ (0 < L → 0 < E → 0 < I → P ≠ 0 → 1 ≤ N → ∀ a : ℚ,
        ∃ r, euler_bernoulli L E I lt P (some a) bc N = Except.ok r) := by
  constructor
  · constructor
    · rintro ⟨msg, hmem, herr⟩
      by_contra hcon
      push_neg at hcon
      obtain ⟨hA, hB, hC, hD, hEp, hF⟩ := hcon
      have h1 : ¬(L ≤ 0 ∨ E ≤ 0 ∨ I ≤ 0) := by push_neg; exact ⟨hA, hB, hC⟩
      have h3 : ¬(lt = LoadType.point ∧ pos = none) := by
        rintro ⟨hl, hp⟩; exact hEp hl hp
      have h4 : ¬(lt = LoadType.moment ∧ pos = none) := by
        rintro ⟨hl, hp⟩; exact hF hl hp
      rcases Nat.eq_zero_or_pos N with hN0 | hN1
      · subst hN0
        rw [euler_bernoulli_zero_points L E I lt P pos bc h1 hD h3 h4] at herr
        injection herr with hs
        subst hs
        simp [invalidParameterMessages] at hmem
      · rw [euler_bernoulli_ok_eq L E I lt P pos bc N h1 hD h3 h4 hN1] at herr
        exact Except.noConfusion herr
    · intro hdisj
      by_cases hA : L ≤ 0 ∨ E ≤ 0 ∨ I ≤ 0
      · exact ⟨"Length, E, and second_moment must be positive",
          by simp [invalidParameterMessages],
          by rw [euler_bernoulli, if_pos hA]⟩
      · by_cases hB : P = 0
        · refine ⟨"Load magnitude cannot be zero",
            by simp [invalidParameterMessages], ?_⟩
          rw [euler_bernoulli, if_neg hA, if_pos hB]
        · by_cases hC : lt = LoadType.point ∧ pos = none
          · refine ⟨"Point load requires load_position",
              by simp [invalidParameterMessages], ?_⟩
            rw [euler_bernoulli, if_neg hA, if_neg hB, if_pos hC]
          · have hD : lt = LoadType.moment ∧ pos = none := by tauto
            refine ⟨"Applied moment requires load_position",
              by simp [invalidParameterMessages], ?_⟩
            rw [euler_bernoulli, if_neg hA, if_neg hB, if_neg hC, if_pos hD]
  · intro hL hE2 hI2 hP hN a
    have h1 : ¬(L ≤ 0 ∨ E ≤ 0 ∨ I ≤ 0) := by push_neg; exact ⟨hL, hE2, hI2⟩
    exact ⟨_, euler_bernoulli_ok_eq L E I lt P (some a) bc N h1 hP (by simp)
      (by simp) hN⟩

/-- Witness for C2: a point load positioned beyond the beam length is
accepted. -/
theorem euler_bernoulli_invalid_iff_witness :
    ∃ r, euler_bernoulli 1 1 1 LoadType.point 1 (some 5)
        BoundaryCondition.simply_supported 2 = Except.ok r :=
  (euler_bernoulli_invalid_iff 1 1 1 LoadType.point 1 (some 99)
      BoundaryCondition.simply_supported 2).2
    one_pos one_pos one_pos one_ne_zero one_le_two 5

/-- C3: the simply-supported point-load shear is a three-way branch with a
dedicated exact-zero value at a station equal to the load position, while
the cantilever and fixed-fixed point-load shears are two-way splits whose
value at the exact load point is the left-branch value (-P, resp. R1). -/
theorem point_load_shear_branching (x : List ℚ) (L E I P a : ℚ) :
    ((_simply_supported_point_load x L E I P a).2.2 =
      x.map (fun xi =>
        if xi < a then P * (L - a) / L
        else if xi > a then -(P * a / L) else 0))
    ∧ ((_simply_supported_point_load [a] L E I P a).2.2 = [0])
    ∧ ((_cantilever_point_load x L E I P a).2.2 =
      x.map (fun xi => if xi ≤ a then -P else 0))
    ∧ ((_cantilever_point_load [a] L E I P a).2.2 = [-P])
    ∧ ((_fixed_fixed_point_load x L E I P a).2.2 =
      x.map (fun xi =>
        if xi ≤ a then P * (L - a) ^ 2 * (3 * a + (L - a)) / L ^ 3
        else P * (L - a) ^ 2 * (3 * a + (L - a)) / L ^ 3 - P))
    ∧ ((_fixed_fixed_point_load [a] L E I P a).2.2 =
      [P * (L - a) ^ 2 * (3 * a + (L - a)) / L ^ 3]) := by
  refine ⟨rfl, ?_, rfl, ?_, rfl, ?_⟩ <;>
    simp [_simply_supported_point_load, _cantilever_point_load,
      _fixed_fixed_point_load]

/-- C7: the simply-supported distributed-load fields follow the closed-form
deflection, moment and shear formulas at every station; at a sampled grid
containing the midspan station the computed maxima agree with wL^2/8 and
5wL^4/(384EI) (here exactly, hence within 1%). -/
theorem simply_supported_distributed_formulas (x : List ℚ) (L E I w : ℚ) :
    ((_simply_supported_distributed_load x L E I w).1 =
      x.map (fun xi => w * xi * (L ^ 3 - 2 * L * xi ^ 2 + xi ^ 3) / (24 * E * I)))
    ∧ ((_simply_supported_distributed_load x L E I w).2.1 =
      x.map (fun xi => w * xi * (L - xi) / 2))
    ∧ ((_simply_supported_distributed_load x L E I w).2.2 =
      x.map (fun xi => w * L / 2 - w * xi))
    ∧ (∃ r, euler_bernoulli 1 1 1 LoadType.distributed 1 none
          BoundaryCondition.simply_supported 3 = Except.ok r
        ∧ |r.max_moment - 1 * 1 ^ 2 / 8| ≤ 1 / 100 * (1 * 1 ^ 2 / 8)
        ∧ |r.max_deflection - 5 * 1 * 1 ^ 4 / (384 * 1 * 1)| ≤
            1 / 100 * (5 * 1 * 1 ^ 4 / (384 * 1 * 1))) := by
  refine ⟨rfl, rfl, rfl,
    ⟨[0, 1/2, 1], [0, 5/384, 0], [0, 1/8, 0], [1/2, 0, -(1/2)], 5/384, 1/8⟩,
    ?_, by norm_num, by norm_num⟩
  norm_num [euler_bernoulli, linspace, List.range_succ, dispatch,
    _simply_supported_distributed_load, npMax, abs_of_nonneg]
  rfl

lemma euler_buckling_ok_eq (ops : FloatOps) (L E I : ℚ) (ec : EndCondition)
    (SF : ℚ) (hL : 0 < L) (hE : 0 < E) (hI : 0 < I) (hSF : 0 < SF) :
    euler_buckling ops L E I ec SF = Except.ok
      { critical_load := ops.pi ^ 2 * E * I / (K_factors ec * L) ^ 2
        design_load := ops.pi ^ 2 * E * I / (K_factors ec * L) ^ 2 / SF
        critical_stress := ops.pi ^ 2 * E * I / (K_factors ec * L) ^ 2 / ops.sqrt I
        effective_length := K_factors ec * L
        K_factor := K_factors ec
        slenderness_ratio := K_factors ec * L / ops.sqrt (I / ops.sqrt I)
        radius_of_gyration := ops.sqrt (I / ops.sqrt I)
        recommendation :=
          recommendationOf (K_factors ec * L / ops.sqrt (I / ops.sqrt I)) } := by
  rw [euler_buckling, if_neg (not_le.mpr hL), if_neg (not_le.mpr hE),
    if_neg (not_le.mpr hI), if_neg (not_le.mpr hSF)]

/-- C4: for every valid ColumnSpec, euler_buckling computes the K factor by
the fixed lookup table, effective_length = K*L, critical_load =
pi^2*E*I/effective_length^2 and design_load = critical_load/safety_factor
exactly, and returns all four. -/
theorem euler_buckling_core_formulas (ops : FloatOps) (L E I : ℚ)
    (ec : EndCondition) (SF : ℚ)
    (hL : 0 < L) (hE : 0 < E) (hI : 0 < I) (hSF : 0 < SF) :
    ∃ r, euler_buckling ops L E I ec SF = Except.ok r
      ∧ r.K_factor = K_factors ec
      ∧ r.effective_length = K_factors ec * L
      ∧ r.critical_load = ops.pi ^ 2 * E * I / r.effective_length ^ 2
      ∧ r.design_load = r.critical_load / SF
      ∧ K_factors EndCondition.pinned = 1
      ∧ K_factors EndCondition.fixed = 1 / 2
      ∧ K_factors EndCondition.fixed_free = 2
      ∧ K_factors EndCondition.fixed_pinned = 7 / 10 :=
  ⟨_, euler_buckling_ok_eq ops L E I ec SF hL hE hI hSF,
    rfl, rfl, rfl, rfl, rfl, rfl, rfl, rfl⟩

/-- Witness for C4 at a concrete valid column. -/
theorem euler_buckling_core_formulas_witness :
    ∃ r, euler_buckling ⟨3, id⟩ 1 1 1 EndCondition.fixed_pinned 2 = Except.ok r
      ∧ r.K_factor = K_factors EndCondition.fixed_pinned
      ∧ r.effective_length = K_factors EndCondition.fixed_pinned * 1
      ∧ r.critical_load = (⟨3, id⟩ : FloatOps).pi ^ 2 * 1 * 1 / r.effective_length ^ 2
      ∧ r.design_load = r.critical_load / 2
      ∧ K_factors EndCondition.pinned = 1
      ∧ K_factors EndCondition.fixed = 1 / 2
      ∧ K_factors EndCondition.fixed_free = 2
      ∧ K_factors EndCondition.fixed_pinned = 7 / 10 :=
  euler_buckling_core_formulas ⟨3, id⟩ 1 1 1 EndCondition.fixed_pinned 2
    one_pos one_pos one_pos two_pos

/-- C5: the recommendation is the four-way band classification of the
slenderness ratio, with bands [0,50), [50,100), [100,200), [200,inf), the
boundary values 50, 100 and 200 each falling into the higher band. -/
theorem euler_buckling_recommendation_bands (ops : FloatOps) (L E I : ℚ)
    (ec : EndCondition) (SF : ℚ) (s : ℚ) (r : EulerBucklingResult)
    (hL : 0 < L) (hE : 0 < E) (hI : 0 < I) (hSF : 0 < SF)
    (hr : euler_buckling ops L E I ec SF = Except.ok r) :
    r.recommendation = recommendationOf r.slenderness_ratio
    ∧ recommendationOf s ∈
        ["Short column - check crushing/yielding instead of buckling",
         "Intermediate column - consider inelastic buckling",
         "Long column - Euler buckling applicable",
         "Very slender - verify assumptions and consider imperfections"]
    ∧ (0 ≤ s → s < 50 →
        recommendationOf s = "Short column - check crushing/yielding instead of buckling")
    ∧ (50 ≤ s → s < 100 →
        recommendationOf s = "Intermediate column - consider inelastic buckling")
    ∧ (100 ≤ s → s < 200 →
        recommendationOf s = "Long column - Euler buckling applicable")
    ∧ (200 ≤ s →
        recommendationOf s = "Very slender - verify assumptions and consider imperfections") := by
  rw [euler_buckling_ok_eq ops L E I ec SF hL hE hI hSF] at hr
  injection hr with hr2
  subst hr2
  refine ⟨rfl, ?_, ?_, ?_, ?_, ?_⟩
  · rw [recommendationOf]
    split
    · simp
    · split
      · simp
      · split <;> simp
  · intro h0 h50
    rw [recommendationOf, if_pos h50]
  · intro h50 h100
    rw [recommendationOf, if_neg (by linarith), if_pos h100]
  · intro h100 h200
    rw [recommendationOf, if_neg (by linarith), if_neg (by linarith),
      if_pos h200]
  · intro h200
    rw [recommendationOf, if_neg (by linarith), if_neg (by linarith),
      if_neg (by linarith)]

/-- Witness for C5: the boundary value 50 falls into the intermediate band. -/
theorem euler_buckling_recommendation_bands_witness :
    recommendationOf 50 = "Intermediate column - consider inelastic buckling" :=
  (euler_buckling_recommendation_bands ⟨3, id⟩ 1 1 1 EndCondition.pinned 1 50
      ⟨9, 9, 9, 1, 1, 1, 1, "Short column - check crushing/yielding instead of buckling"⟩
      one_pos one_pos one_pos one_pos
      (by norm_num [euler_buckling, K_factors, recommendationOf])).2.2.2.1
    (by norm_num) (by norm_num)

/-- C6: euler_buckling validates length, E, second_moment and safety_factor
as four independent checks with distinct field-identifying messages, all
before any computation; with all four positive the call succeeds. -/
theorem euler_buckling_validation (ops : FloatOps) (L E I : ℚ)
    (ec : EndCondition) (SF : ℚ) :
    (L ≤ 0 →
      euler_buckling ops L E I ec SF = Except.error "Length must be positive")
    ∧ (0 < L → E ≤ 0 →
      euler_buckling ops L E I ec SF = Except.error "Elastic modulus must be positive")
    ∧ (0 < L → 0 < E → I ≤ 0 →
      euler_buckling ops L E I ec SF = Except.error "Second moment of area must be positive")
    ∧ (0 < L → 0 < E → 0 < I → SF ≤ 0 →
      euler_buckling ops L E I ec SF = Except.error "Safety factor must be positive")
    ∧ (0 < L → 0 < E → 0 < I → 0 < SF →
      ∃ r, euler_buckling ops L E I ec SF = Except.ok r) := by
  refine ⟨?_, ?_, ?_, ?_, ?_⟩
  · intro h
    rw [euler_buckling, if_pos h]
  · intro hL h
    rw [euler_buckling, if_neg (not_le.mpr hL), if_pos h]
  · intro hL hE h
    rw [euler_buckling, if_neg (not_le.mpr hL), if_neg (not_le.mpr hE),
      if_pos h]
  · intro hL hE hI h
    rw [euler_buckling, if_neg (not_le.mpr hL), if_neg (not_le.mpr hE),
      if_neg (not_le.mpr hI), if_pos h]
  · intro hL hE hI hSF
    exact ⟨_, euler_buckling_ok_eq ops L E I ec SF hL hE hI hSF⟩

/-- Witness for C6: a non-positive length fails with the length message. -/
theorem euler_buckling_validation_witness :
    euler_buckling ⟨3, id⟩ (-1) 1 1 EndCondition.pinned 1 =
      Except.error "Length must be positive" :=
  (euler_buckling_validation ⟨3, id⟩ (-1) 1 1 EndCondition.pinned 1).1
    (by norm_num)
